import Mathlib

set_option maxRecDepth 100000

/-!
Verification of the SQL `CALL`-statement construction and task registration
in `airflow_call_bq_sp.py`.

The script renders a BigQuery `CALL` statement by string interpolation and
registers a single task in one DAG. We embed the string construction as pure
Lean functions over `String`, generalised over the interpolated values
exactly as the script's f-string template uses them, and the task
registration as the record of the five values the script passes to the
operator constructor.
-/

namespace AirflowCallBqSp

/-- Python's `sep.join(xs)`: empty string on the empty list, otherwise the
elements interleaved with the separator. -/
def joinSep (sep : String) : List String → String
  | [] => ""
  | [x] => x
  | x :: y :: xs => x ++ sep ++ joinSep sep (y :: xs)

/-- Configuration constant `GCP_PROJECT_ID` from the script. -/
def GCP_PROJECT_ID : String := "your-gcp-project-id"

/-- Configuration constant `GCP_CONN_ID` from the script. -/
def GCP_CONN_ID : String := "google_cloud_default"

/-- Configuration constant `BQ_LOCATION` from the script. -/
def BQ_LOCATION : String := "US"

/-- Configuration constant `SP_DATASET` from the script. -/
def SP_DATASET : String := "your_dataset"

/-- Configuration constant `SP_NAME` from the script. -/
def SP_NAME : String := "usp_generic_merge"

/-- Configuration constant `TARGET_TABLE` from the script. -/
def TARGET_TABLE : String := GCP_PROJECT_ID ++ "." ++ SP_DATASET ++ ".target_customers"

/-- Configuration constant `SOURCE_TABLE` from the script. -/
def SOURCE_TABLE : String := GCP_PROJECT_ID ++ "." ++ SP_DATASET ++ ".staging_customers"

/-- Configuration constant `KEY_COLUMNS` from the script. -/
def KEY_COLUMNS : List String := ["customer_id"]

/-- Embedding of the script's `key_columns_sql_array` expression,
generalised over the key-column list (the script applies it to
`KEY_COLUMNS`): `"[" + ", ".join([f"'{col}'" for col in KEY_COLUMNS]) + "]"`. -/
def key_columns_sql_array (key_columns : List String) : String :=
  "[" ++ joinSep ", " (key_columns.map (fun col => "'" ++ col ++ "'")) ++ "]"

/-- Embedding of the script's `sql_call_statement` f-string, generalised over
the interpolated values (the script applies it to its configuration
constants). The literal segments, including every space, comment and newline,
are transcribed byte-for-byte from the source. -/
def sql_call_statement (project_id dataset procedure_name : String)
    (target_table source_table : String) (key_columns : List String) : String :=
  "\nCALL `" ++ project_id ++ "." ++ dataset ++ "." ++ procedure_name ++
  "`(\n    '" ++ target_table ++
  "',          -- target_table_name STRING\n    '" ++ source_table ++
  "',          -- source_table_name STRING\n    " ++
  key_columns_sql_array key_columns ++
  ",   -- key_columns ARRAY<STRING>\n    NULL                       -- options JSON (using NULL here)\n    -- Or use an empty JSON object: PARSE_JSON('\x7b\x7d')\n);\n"

/-- Declarative task object: exactly the five values the script passes to the
`BigQueryExecuteQueryOperator` constructor. -/
structure BigQueryExecuteQueryOperator where
  task_id : String
  sql : String
  use_legacy_sql : Bool
  location : String
  gcp_conn_id : String
  deriving DecidableEq

/-- Workflow graph: the `DAG` context manager with its id and the tasks
registered inside it. -/
structure DAG where
  dag_id : String
  tasks : List BigQueryExecuteQueryOperator
  deriving DecidableEq

/-- Registration of the one task, generalised over the SQL text and the task
identifier (the script applies it to `sql_call_statement` and
`"call_usp_generic_merge"`); the other three operator arguments are passed
exactly as in the script. -/
def registerCallTask (sqlText : String) (tid : String) : BigQueryExecuteQueryOperator :=
  { task_id := tid
    sql := sqlText
    use_legacy_sql := false
    location := BQ_LOCATION
    gcp_conn_id := GCP_CONN_ID }

/-- The script's `call_bigquery_stored_procedure` operator instance. -/
def call_bigquery_stored_procedure : BigQueryExecuteQueryOperator :=
  registerCallTask
    (sql_call_statement GCP_PROJECT_ID SP_DATASET SP_NAME TARGET_TABLE SOURCE_TABLE KEY_COLUMNS)
    "call_usp_generic_merge"

/-- The script's DAG `bq_call_generic_merge_sp` with its single task. -/
def dag : DAG :=
  { dag_id := "bq_call_generic_merge_sp"
    tasks := [call_bigquery_stored_procedure] }

/-- Modelled from the spec: the exact output string that the specification's
end-to-end example requires for the inputs of claim C1 (no leading blank
line, no embedded SQL comments). -/
def specExampleOutput : String :=
  "CALL `proj.ds.usp_generic_merge`(\n    'proj.ds.target',\n    'proj.ds.source',\n    ['id'],\n    NULL\n);"

/-- Number of positions of `l` at which the pattern `n` occurs as a
contiguous substring (occurrences may overlap). -/
def occCount (n : List Char) : List Char → Nat
  | [] => if n <+: ([] : List Char) then 1 else 0
  | c :: l => (if n <+: (c :: l) then 1 else 0) + occCount n l

/-- Interpolated values free of the fragments counted in claim C3: the
four-character keyword `CALL`, backticks and square brackets. -/
def cleanArg (x : String) : Prop :=
  ¬ ("CALL").data <:+: x.data ∧ '`' ∉ x.data ∧ '[' ∉ x.data ∧ ']' ∉ x.data

instance (x : String) : Decidable (cleanArg x) := by
  unfold cleanArg
  infer_instance

end AirflowCallBqSp

namespace AirflowCallBqSp

/-- On the empty list `occCount` is zero for a non-empty pattern. -/
theorem occCount_nil (n : List Char) (hn : n ≠ []) : occCount n [] = 0 := by
  simp [occCount, List.prefix_nil, hn]

/-- Unfolding `occCount` on a cons cell. -/
theorem occCount_cons (n : List Char) (c : Char) (l : List Char) :
    occCount n (c :: l) = (if n <+: (c :: l) then 1 else 0) + occCount n l := rfl

/-- A non-empty pattern that is not an infix of `l` has no occurrence in `l`. -/
theorem occCount_eq_zero (n : List Char) (hn : n ≠ []) :
    ∀ l : List Char, ¬ n <:+: l → occCount n l = 0 := by
  intro l
  induction l with
  | nil => intro _; exact occCount_nil n hn
  | cons c l ih =>
    intro h
    rw [occCount_cons]
    have h1 : ¬ n <+: c :: l := fun hp => h ⟨[], hp.choose, by simpa using hp.choose_spec⟩
    have h2 : occCount n l = 0 := ih (fun hi => h (List.infix_cons hi))
    simp [h1, h2]

/-- A single-character haystack holds no occurrence of a pattern missing
that character. -/
theorem occCount_singleton_zero (n : List Char) (hn : n ≠ []) (c : Char)
    (hc : c ∉ n) : occCount n [c] = 0 := by
  apply occCount_eq_zero n hn
  intro hi
  rcases n with _ | ⟨x, n'⟩
  · exact hn rfl
  · have hx : x ∈ [c] := hi.sublist.subset (List.mem_cons_self x n')
    have : x = c := by simpa using hx
    exact hc (this ▸ List.mem_cons_self x n')

/-- A needle made of a single absent character never occurs. -/
theorem occCount_singleton_needle_zero (c : Char) (l : List Char) (h : c ∉ l) :
    occCount [c] l = 0 := by
  apply occCount_eq_zero [c] (by simp)
  intro hi
  exact h (hi.sublist.subset (List.mem_cons_self c []))

/-- Head of an append whose left part is a known cons cell. -/
theorem head?_append_of_cons {α : Type} {l : List α} {c : α} {l' r : List α}
    (h : l = c :: l') : (l ++ r).head? = some c := by
  subst h; rfl

/-- A prefix of `u ++ b` that would straddle the boundary must contain the
last element of `u`; if `u` ends in a character outside the pattern, the
pattern is a prefix of `u ++ b` exactly when it is a prefix of `u`. -/
theorem prefix_append_iff_last (n u b : List Char) (hn : n ≠ []) {c : Char}
    (hu : u.getLast? = some c) (hcn : c ∉ n) : n <+: u ++ b ↔ n <+: u := by
  constructor
  · intro hp
    rcases le_or_lt n.length u.length with hle | hlt
    · exact List.prefix_of_prefix_length_le hp (List.prefix_append u b) hle
    · exfalso
      have hun : u <+: n :=
        List.prefix_of_prefix_length_le (List.prefix_append u b) hp (Nat.le_of_lt hlt)
      obtain ⟨u', rfl⟩ := List.getLast?_eq_some_iff.mp hu
      exact hcn (hun.subset (by simp))
  · intro hp
    exact hp.trans (List.prefix_append u b)

/-- A prefix of `u ++ (c :: b')` that would straddle the boundary must
contain `c`; if `c` is outside the pattern, the pattern is a prefix of the
whole exactly when it is a prefix of `u`. -/
theorem prefix_append_iff_head (n u b' : List Char) (c : Char) (hn : n ≠ [])
    (hu : u ≠ []) (hcn : c ∉ n) : n <+: u ++ (c :: b') ↔ n <+: u := by
  constructor
  · intro hp
    rcases le_or_lt n.length u.length with hle | hlt
    · exact List.prefix_of_prefix_length_le hp (List.prefix_append u (c :: b')) hle
    · exfalso
      have hun : u <+: n :=
        List.prefix_of_prefix_length_le (List.prefix_append u (c :: b')) hp (Nat.le_of_lt hlt)
      obtain ⟨r, hr⟩ := hun
      have hrne : r ≠ [] := by
        intro h0
        subst h0
        rw [List.append_nil] at hr
        subst hr
        exact Nat.lt_irrefl _ hlt
      rcases r with _ | ⟨y, m⟩
      · exact hrne rfl
      · obtain ⟨t, ht⟩ := hp
        rw [← hr, List.append_assoc] at ht
        have hy : y :: (m ++ t) = c :: b' := by
          simpa using List.append_cancel_left ht
        have hyc : y = c := by injection hy
        subst hyc
        exact hcn (by rw [← hr]; exact List.mem_append_right _ (List.mem_cons_self _ _))
  · intro hp
    exact hp.trans (List.prefix_append u (c :: b'))

/-- Additivity of `occCount` over an append, given that no occurrence can
straddle the boundary. -/
theorem occCount_append_of_forall (n : List Char) (hn : n ≠ []) :
    ∀ (a b : List Char),
      (∀ i, i < a.length → (n <+: a.drop i ++ b ↔ n <+: a.drop i)) →
      occCount n (a ++ b) = occCount n a + occCount n b := by
  intro a
  induction a with
  | nil =>
    intro b _
    simp [occCount_nil n hn]
  | cons c a ih =>
    intro b h
    have h0 := h 0 (by simp)
    rw [List.cons_append, occCount_cons, occCount_cons,
      ih b (fun i hi => by simpa using h (i + 1) (by simpa using hi))]
    simp only [List.drop_zero] at h0
    rw [show ((c :: a) ++ b) = c :: (a ++ b) from rfl] at h0
    simp only [h0]
    omega

/-- The drop of a list keeps its last element. -/
theorem getLast?_drop_eq {α : Type} (a : List α) :
    ∀ i, i < a.length → (a.drop i).getLast? = a.getLast? := by
  induction a with
  | nil => intro i hi; simp at hi
  | cons x xs ih =>
    intro i hi
    match i with
    | 0 => rfl
    | j + 1 =>
      have hj : j < xs.length := by simpa using hi
      have hd : (x :: xs).drop (j + 1) = xs.drop j := rfl
      rw [hd, ih j hj]
      rcases xs with _ | ⟨y, ys⟩
      · simp at hj
      · exact (List.getLast?_cons_cons ..).symm

/-- Splitting `occCount` at a boundary whose left side ends in a character
outside the pattern. -/
theorem occCount_last (n : List Char) {a b : List Char} {c : Char} (hn : n ≠ [])
    (ha : a.getLast? = some c) (hcn : c ∉ n) :
    occCount n (a ++ b) = occCount n a + occCount n b := by
  apply occCount_append_of_forall n hn
  intro i hi
  exact prefix_append_iff_last n (a.drop i) b hn
    (by rw [getLast?_drop_eq a i hi]; exact ha) hcn

/-- Splitting `occCount` at a boundary whose right side starts with a
character outside the pattern. -/
theorem occCount_head (n : List Char) {a b : List Char} {c : Char} (hn : n ≠ [])
    (hb : b.head? = some c) (hcn : c ∉ n) :
    occCount n (a ++ b) = occCount n a + occCount n b := by
  obtain ⟨b', rfl⟩ := List.head?_eq_some_iff.mp hb
  apply occCount_append_of_forall n hn
  intro i hi
  apply prefix_append_iff_head n (a.drop i) b' c hn ?_ hcn
  intro h0
  have hlen := congrArg List.length h0
  simp at hlen
  omega

/-- The rendering of a non-empty key-column list starts with a single
quote. -/
theorem joinSep_quoted_cons (keys : List String) (hk : keys ≠ []) :
    ∃ l, (joinSep ", " (keys.map (fun col => "'" ++ col ++ "'"))).data = '\'' :: l := by
  rcases keys with _ | ⟨k, rest⟩
  · exact absurd rfl hk
  · rcases rest with _ | ⟨y, rest'⟩
    · exact ⟨_, rfl⟩
    · exact ⟨_, rfl⟩

/-- The rendering of a non-empty key-column list ends with a single quote. -/
theorem joinSep_quoted_snoc (keys : List String) (hk : keys ≠ []) :
    ∃ l, (joinSep ", " (keys.map (fun col => "'" ++ col ++ "'"))).data = l ++ ['\''] := by
  induction keys with
  | nil => exact absurd rfl hk
  | cons k rest ih =>
    rcases rest with _ | ⟨y, rest'⟩
    · exact ⟨("'" ++ k).data, rfl⟩
    · obtain ⟨l, hl⟩ := ih (by simp)
      refine ⟨("'" ++ k ++ "'" ++ ", ").data ++ l, ?_⟩
      have hstep : (joinSep ", " ((k :: y :: rest').map (fun col => "'" ++ col ++ "'"))).data
          = ("'" ++ k ++ "'" ++ ", ").data
            ++ (joinSep ", " ((y :: rest').map (fun col => "'" ++ col ++ "'"))).data := rfl
      rw [hstep, hl, List.append_assoc]

/-- A pattern without single quotes and absent from `col` does not occur in
the quoted rendering of `col`. -/
theorem occCount_quoted_zero (n : List Char) (hn : n ≠ []) (hq : '\'' ∉ n)
    (col : String) (hc : occCount n col.data = 0) :
    occCount n ("'" ++ col ++ "'").data = 0 := by
  have hd : ("'" ++ col ++ "'").data = ['\''] ++ (col.data ++ ['\'']) := rfl
  rw [hd, occCount_last n hn (show (['\''] : List Char).getLast? = some '\'' from rfl) hq,
    occCount_head n hn (show (['\''] : List Char).head? = some '\'' from rfl) hq,
    occCount_singleton_zero n hn '\'' hq, hc]

/-- A pattern without quotes, commas or spaces that occurs in no key column
does not occur in the joined key-column rendering. -/
theorem occCount_joinSep_zero (n : List Char) (hn : n ≠ []) (hq : '\'' ∉ n)
    (hcomma : ',' ∉ n) (hsp : ' ' ∉ n) :
    ∀ keys : List String, (∀ k ∈ keys, occCount n k.data = 0) →
      occCount n (joinSep ", " (keys.map (fun col => "'" ++ col ++ "'"))).data = 0 := by
  intro keys
  induction keys with
  | nil =>
    intro _
    exact occCount_nil n hn
  | cons k rest ih =>
    intro hk
    rcases rest with _ | ⟨y, rest'⟩
    · have hone : (joinSep ", " ([k].map (fun col => "'" ++ col ++ "'"))).data
          = ("'" ++ k ++ "'").data := rfl
      rw [hone]
      exact occCount_quoted_zero n hn hq k (hk k (by simp))
    · have hsplit : (joinSep ", " ((k :: y :: rest').map (fun col => "'" ++ col ++ "'"))).data
          = ("'" ++ k ++ "'").data ++ ((", ").data
            ++ (joinSep ", " ((y :: rest').map (fun col => "'" ++ col ++ "'"))).data) := by
        rw [show joinSep ", " ((k :: y :: rest').map (fun col => "'" ++ col ++ "'"))
            = ("'" ++ k ++ "'") ++ ", " ++ joinSep ", " ((y :: rest').map (fun col => "'" ++ col ++ "'"))
          from rfl, String.data_append, String.data_append, List.append_assoc]
      have hql : ("'" ++ k ++ "'").data.getLast? = some '\'' := by
        rw [show ("'" ++ k ++ "'").data = ('\'' :: k.data) ++ ['\''] from rfl]
        exact List.getLast?_concat _
      rw [hsplit, occCount_last n hn hql hq,
        occCount_last n hn (show (", ").data.getLast? = some ' ' from rfl) hsp,
        occCount_quoted_zero n hn hq k (hk k (by simp)),
        ih (fun k' hk' => hk k' (by simp [hk'])),
        show (", ").data = [','] ++ [' '] from rfl,
        occCount_last n hn (show ([','] : List Char).getLast? = some ',' from rfl) hcomma,
        occCount_singleton_zero n hn ',' hcomma,
        occCount_singleton_zero n hn ' ' hsp]

/-- Master decomposition: for a pattern that cannot straddle any boundary of
the template, the occurrence count of the built statement is the sum of the
counts of the fixed literal segments (all interpolated values contributing
zero by hypothesis). -/
theorem occCount_sql (n : List Char) (hn : n ≠ [])
    (p d nm t s : String) (keys : List String)
    (hp : p ≠ "") (hnm : nm ≠ "") (hkeys : keys ≠ [])
    (hdot : '.' ∉ n) (hq : '\'' ∉ n) (hcomma : ',' ∉ n) (hsp : ' ' ∉ n)
    (hbt : '`' ∉ n ∨ (n = ['`'] ∧ '`' ∉ p.data ∧ '`' ∉ nm.data))
    (hzp : occCount n p.data = 0) (hzd : occCount n d.data = 0)
    (hznm : occCount n nm.data = 0) (hzt : occCount n t.data = 0)
    (hzs : occCount n s.data = 0) (hzk : ∀ k ∈ keys, occCount n k.data = 0) :
    occCount n (sql_call_statement p d nm t s keys).data =
      occCount n ("\nCALL `").data + occCount n ("`(\n    '").data +
      occCount n ("',          -- target_table_name STRING\n    '").data +
      occCount n ("',          -- source_table_name STRING\n    ").data +
      occCount n ['['] + occCount n [']'] +
      occCount n (",   -- key_columns ARRAY<STRING>\n    NULL                       -- options JSON (using NULL here)\n    -- Or use an empty JSON object: PARSE_JSON('\x7b\x7d')\n);\n").data := by
  have hdata : (sql_call_statement p d nm t s keys).data
      = ("\nCALL `").data ++ (p.data ++ (['.'] ++ (d.data ++ (['.'] ++ (nm.data
        ++ (("`(\n    '").data ++ (t.data
        ++ (("',          -- target_table_name STRING\n    '").data ++ (s.data
        ++ (("',          -- source_table_name STRING\n    ").data
        ++ (['['] ++ ((joinSep ", " (keys.map (fun col => "'" ++ col ++ "'"))).data
        ++ ([']'] ++ (",   -- key_columns ARRAY<STRING>\n    NULL                       -- options JSON (using NULL here)\n    -- Or use an empty JSON object: PARSE_JSON('\x7b\x7d')\n);\n").data))))))))))))) := by
    simp only [sql_call_statement, key_columns_sql_array, String.data_append,
      List.append_assoc]
  have hpd : p.data ≠ [] := fun h0 => hp (String.ext h0)
  obtain ⟨pc, pr, hpc⟩ : ∃ c r, p.data = c :: r := by
    rcases hcase : p.data with _ | ⟨c, r⟩
    · exact absurd hcase hpd
    · exact ⟨c, r, rfl⟩
  have hsplit1 : ∀ R : List Char,
      occCount n (("\nCALL `").data ++ (p.data ++ R)) =
        occCount n ("\nCALL `").data + occCount n (p.data ++ R) := by
    intro R
    rcases hbt with hbt | ⟨hbn, hbp, _⟩
    · exact occCount_last n hn (show ("\nCALL `").data.getLast? = some '`' from rfl) hbt
    · refine occCount_head n hn (head?_append_of_cons hpc) ?_
      subst hbn
      simp only [List.mem_singleton]
      intro h0
      subst h0
      exact hbp (by rw [hpc]; exact List.mem_cons_self _ _)
  have hsplit6 : ∀ R : List Char,
      occCount n (nm.data ++ (("`(\n    '").data ++ R)) =
        occCount n nm.data + occCount n (("`(\n    '").data ++ R) := by
    intro R
    rcases hbt with hbt | ⟨hbn, _, hbnm⟩
    · exact occCount_head n hn
        (head?_append_of_cons (show ("`(\n    '").data = '`' :: ("(\n    '").data from rfl)) hbt
    · have hnmd : nm.data ≠ [] := fun h0 => hnm (String.ext h0)
      refine occCount_last n hn (List.getLast?_eq_getLast nm.data hnmd) ?_
      subst hbn
      simp only [List.mem_singleton]
      intro h0
      exact hbnm (h0 ▸ List.getLast_mem hnmd)
  obtain ⟨jh, hjh⟩ := joinSep_quoted_cons keys hkeys
  have hjl : (joinSep ", " (keys.map (fun col => "'" ++ col ++ "'"))).data.getLast?
      = some '\'' := by
    obtain ⟨jl, hjl'⟩ := joinSep_quoted_snoc keys hkeys
    rw [hjl']
    exact List.getLast?_concat _
  rw [hdata]
  rw [hsplit1,
    occCount_head n hn (head?_append_of_cons (show (['.'] : List Char) = '.' :: [] from rfl)) hdot,
    occCount_last n hn (show (['.'] : List Char).getLast? = some '.' from rfl) hdot,
    occCount_head n hn (head?_append_of_cons (show (['.'] : List Char) = '.' :: [] from rfl)) hdot,
    occCount_last n hn (show (['.'] : List Char).getLast? = some '.' from rfl) hdot,
    hsplit6,
    occCount_last n hn (show ("`(\n    '").data.getLast? = some '\'' from rfl) hq,
    occCount_head n hn (head?_append_of_cons
      (show ("',          -- target_table_name STRING\n    '").data
        = '\'' :: (",          -- target_table_name STRING\n    '").data from rfl)) hq,
    occCount_last n hn
      (show ("',          -- target_table_name STRING\n    '").data.getLast? = some '\'' from rfl) hq,
    occCount_head n hn (head?_append_of_cons
      (show ("',          -- source_table_name STRING\n    ").data
        = '\'' :: (",          -- source_table_name STRING\n    ").data from rfl)) hq,
    occCount_last n hn
      (show ("',          -- source_table_name STRING\n    ").data.getLast? = some ' ' from rfl) hsp,
    occCount_head n hn (head?_append_of_cons hjh) hq,
    occCount_last n hn hjl hq,
    occCount_head n hn
      (show (",   -- key_columns ARRAY<STRING>\n    NULL                       -- options JSON (using NULL here)\n    -- Or use an empty JSON object: PARSE_JSON('\x7b\x7d')\n);\n").data.head? = some ',' from rfl) hcomma,
    hzp, hzd, hznm, hzt, hzs,
    occCount_joinSep_zero n hn hq hcomma hsp keys hzk,
    occCount_singleton_zero n hn '.' hdot]
  omega

/-- Claim C3, counterexample: the key column `"CALL"` is a valid input for
the claim (all identifier strings non-empty, key list non-empty), yet the
built statement then contains two occurrences of `CALL`, not exactly one. -/
theorem c3_two_call_occurrences :
    ("proj" : String) ≠ "" ∧ ("CALL" : String) ≠ "" ∧ (["CALL"] : List String) ≠ [] ∧
    occCount ("CALL").data
      (sql_call_statement "proj" "ds" "usp_generic_merge"
        "proj.ds.target" "proj.ds.source" ["CALL"]).data = 2 := by
  refine ⟨by decide, by decide, by decide, ?_⟩
  decide

/-- Claim C3, amended: for valid inputs none of which contains the fragment
`CALL`, a backtick or a square bracket, the built statement contains exactly
one occurrence of `CALL`, exactly two backticks forming the one quoted
identifier `` `project.dataset.procedure` ``, and exactly one `[` and one
`]` delimiting the rendered key-column array literal, which appears verbatim
(one single-quoted element per key column, in input order). -/
theorem c3_structure
    (p d nm t s : String) (keys : List String)
    (hp : p ≠ "") (hd : d ≠ "") (hnm : nm ≠ "") (ht : t ≠ "") (hs : s ≠ "")
    (hkeys : keys ≠ [])
    (hcp : cleanArg p) (hcd : cleanArg d) (hcnm : cleanArg nm)
    (hct : cleanArg t) (hcs : cleanArg s) (hck : ∀ k ∈ keys, cleanArg k) :
    occCount ("CALL").data (sql_call_statement p d nm t s keys).data = 1 ∧
    occCount ['`'] (sql_call_statement p d nm t s keys).data = 2 ∧
    ("`" ++ p ++ "." ++ d ++ "." ++ nm ++ "`").data
      <:+: (sql_call_statement p d nm t s keys).data ∧
    occCount ['['] (sql_call_statement p d nm t s keys).data = 1 ∧
    occCount [']'] (sql_call_statement p d nm t s keys).data = 1 ∧
    (key_columns_sql_array keys).data <:+: (sql_call_statement p d nm t s keys).data := by
  have hzCALL : ∀ x : String, cleanArg x → occCount ("CALL").data x.data = 0 :=
    fun x hx => occCount_eq_zero _ (by decide) _ hx.1
  have hzbt : ∀ x : String, cleanArg x → occCount ['`'] x.data = 0 :=
    fun x hx => occCount_singleton_needle_zero _ _ hx.2.1
  have hzlb : ∀ x : String, cleanArg x → occCount ['['] x.data = 0 :=
    fun x hx => occCount_singleton_needle_zero _ _ hx.2.2.1
  have hzrb : ∀ x : String, cleanArg x → occCount [']'] x.data = 0 :=
    fun x hx => occCount_singleton_needle_zero _ _ hx.2.2.2
  refine ⟨?_, ?_, ?_, ?_, ?_, ?_⟩
  · rw [occCount_sql ("CALL").data (by decide) p d nm t s keys hp hnm hkeys
      (by decide) (by decide) (by decide) (by decide) (Or.inl (by decide))
      (hzCALL p hcp) (hzCALL d hcd) (hzCALL nm hcnm) (hzCALL t hct) (hzCALL s hcs)
      (fun k hk => hzCALL k (hck k hk))]
    decide
  · rw [occCount_sql ['`'] (by decide) p d nm t s keys hp hnm hkeys
      (by decide) (by decide) (by decide) (by decide)
      (Or.inr ⟨rfl, hcp.2.1, hcnm.2.1⟩)
      (hzbt p hcp) (hzbt d hcd) (hzbt nm hcnm) (hzbt t hct) (hzbt s hcs)
      (fun k hk => hzbt k (hck k hk))]
    decide
  · refine ⟨("\nCALL ").data,
      ("(\n    '" ++ t ++ "',          -- target_table_name STRING\n    '" ++ s
        ++ "',          -- source_table_name STRING\n    "
        ++ key_columns_sql_array keys
        ++ ",   -- key_columns ARRAY<STRING>\n    NULL                       -- options JSON (using NULL here)\n    -- Or use an empty JSON object: PARSE_JSON('\x7b\x7d')\n);\n").data, ?_⟩
    simp only [sql_call_statement, key_columns_sql_array, String.data_append,
      List.append_assoc]
    rfl
  · rw [occCount_sql ['['] (by decide) p d nm t s keys hp hnm hkeys
      (by decide) (by decide) (by decide) (by decide) (Or.inl (by decide))
      (hzlb p hcp) (hzlb d hcd) (hzlb nm hcnm) (hzlb t hct) (hzlb s hcs)
      (fun k hk => hzlb k (hck k hk))]
    decide
  · rw [occCount_sql [']'] (by decide) p d nm t s keys hp hnm hkeys
      (by decide) (by decide) (by decide) (by decide) (Or.inl (by decide))
      (hzrb p hcp) (hzrb d hcd) (hzrb nm hcnm) (hzrb t hct) (hzrb s hcs)
      (fun k hk => hzrb k (hck k hk))]
    decide
  · refine ⟨("\nCALL `" ++ p ++ "." ++ d ++ "." ++ nm ++ "`(\n    '" ++ t
      ++ "',          -- target_table_name STRING\n    '" ++ s
      ++ "',          -- source_table_name STRING\n    ").data,
      (",   -- key_columns ARRAY<STRING>\n    NULL                       -- options JSON (using NULL here)\n    -- Or use an empty JSON object: PARSE_JSON('\x7b\x7d')\n);\n").data, ?_⟩
    simp only [sql_call_statement, key_columns_sql_array, String.data_append,
      List.append_assoc]

/-- Witness for C3 (amended) at the specification's example inputs. -/
theorem c3_structure_witness :
    occCount ("CALL").data (sql_call_statement "proj" "ds" "usp_generic_merge"
      "proj.ds.target" "proj.ds.source" ["id"]).data = 1 ∧
    occCount ['`'] (sql_call_statement "proj" "ds" "usp_generic_merge"
      "proj.ds.target" "proj.ds.source" ["id"]).data = 2 ∧
    ("`" ++ "proj" ++ "." ++ "ds" ++ "." ++ "usp_generic_merge" ++ "`").data
      <:+: (sql_call_statement "proj" "ds" "usp_generic_merge"
        "proj.ds.target" "proj.ds.source" ["id"]).data ∧
    occCount ['['] (sql_call_statement "proj" "ds" "usp_generic_merge"
      "proj.ds.target" "proj.ds.source" ["id"]).data = 1 ∧
    occCount [']'] (sql_call_statement "proj" "ds" "usp_generic_merge"
      "proj.ds.target" "proj.ds.source" ["id"]).data = 1 ∧
    (key_columns_sql_array ["id"]).data
      <:+: (sql_call_statement "proj" "ds" "usp_generic_merge"
        "proj.ds.target" "proj.ds.source" ["id"]).data :=
  c3_structure "proj" "ds" "usp_generic_merge" "proj.ds.target" "proj.ds.source" ["id"]
    (by decide) (by decide) (by decide) (by decide) (by decide) (by decide)
    (by decide) (by decide) (by decide) (by decide) (by decide) (by decide)

/-- A key column's quoted rendering occurs verbatim in the joined array
body. -/
theorem quoted_infix_joinSep (keys : List String) (c : String) (hc : c ∈ keys) :
    ("'" ++ c ++ "'").data
      <:+: (joinSep ", " (keys.map (fun col => "'" ++ col ++ "'"))).data := by
  induction keys with
  | nil => simp at hc
  | cons k rest ih =>
    rcases List.mem_cons.mp hc with rfl | hc'
    · rcases rest with _ | ⟨y, rest'⟩
      · exact List.infix_refl _
      · refine ⟨[], (", ").data
          ++ (joinSep ", " ((y :: rest').map (fun col => "'" ++ col ++ "'"))).data, ?_⟩
        simp only [List.map_cons, joinSep, String.data_append, List.append_assoc,
          List.nil_append]
    · rcases rest with _ | ⟨y, rest'⟩
      · simp at hc'
      · refine (ih hc').trans ⟨("'" ++ k ++ "'" ++ ", ").data, [], ?_⟩
        simp only [List.map_cons, joinSep, String.data_append, List.append_assoc,
          List.append_nil]

/-- A key column's quoted rendering occurs verbatim in the built statement. -/
theorem quoted_key_infix_sql (p d nm t s : String) (keys : List String)
    (c : String) (hc : c ∈ keys) :
    ("'" ++ c ++ "'").data <:+: (sql_call_statement p d nm t s keys).data := by
  refine (quoted_infix_joinSep keys c hc).trans
    ⟨("\nCALL `" ++ p ++ "." ++ d ++ "." ++ nm ++ "`(\n    '" ++ t
      ++ "',          -- target_table_name STRING\n    '" ++ s
      ++ "',          -- source_table_name STRING\n    [").data,
      ("],   -- key_columns ARRAY<STRING>\n    NULL                       -- options JSON (using NULL here)\n    -- Or use an empty JSON object: PARSE_JSON('\x7b\x7d')\n);\n").data, ?_⟩
  simp only [sql_call_statement, key_columns_sql_array, String.data_append,
    List.append_assoc]
  rfl

/-- Claim C5: the code has no selectable rendering mode for the options
argument — for every input the built statement ends with one fixed literal
tail in which the options argument is the literal `NULL`, and
`PARSE_JSON('\x7b\x7d')` occurs only inside a `--` comment line of that tail. -/
theorem c5_options_fixed_null :
    (∀ (p d nm t s : String) (keys : List String), ∃ a,
      (sql_call_statement p d nm t s keys).data =
        a ++ (",   -- key_columns ARRAY<STRING>\n    NULL                       -- options JSON (using NULL here)\n    -- Or use an empty JSON object: PARSE_JSON('\x7b\x7d')\n);\n").data) ∧
    (",   -- key_columns ARRAY<STRING>\n    NULL                       -- options JSON (using NULL here)\n    -- Or use an empty JSON object: PARSE_JSON('\x7b\x7d')\n);\n").data =
      (",   -- key_columns ARRAY<STRING>\n    ").data ++ ("NULL").data
        ++ ("                       ").data ++ ("-- options JSON (using NULL here)").data
        ++ ("\n    ").data ++ ("-- Or use an empty JSON object: PARSE_JSON('\x7b\x7d')").data
        ++ ("\n);\n").data := by
  constructor
  · intro p d nm t s keys
    refine ⟨("\nCALL `" ++ p ++ "." ++ d ++ "." ++ nm ++ "`(\n    '" ++ t
      ++ "',          -- target_table_name STRING\n    '" ++ s
      ++ "',          -- source_table_name STRING\n    "
      ++ key_columns_sql_array keys).data, ?_⟩
    simp only [sql_call_statement, key_columns_sql_array, String.data_append,
      List.append_assoc]
  · decide

/-- Claim C9: for every input the built statement begins with a newline (so
the `CALL` keyword is never at position 0), ends with a newline, and embeds
the four `--` comments of the template, with the `PARSE_JSON('\x7b\x7d')`
comment line lying between the `NULL` argument and the closing
parenthesis. -/
theorem c9_layout (p d nm t s : String) (keys : List String) :
    (sql_call_statement p d nm t s keys).data.head? = some '\n' ∧
    [')', ';', '\n'] <:+ (sql_call_statement p d nm t s keys).data ∧
    ("-- target_table_name STRING").data <:+: (sql_call_statement p d nm t s keys).data ∧
    ("-- source_table_name STRING").data <:+: (sql_call_statement p d nm t s keys).data ∧
    ("-- key_columns ARRAY<STRING>").data <:+: (sql_call_statement p d nm t s keys).data ∧
    ("-- options JSON (using NULL here)").data <:+: (sql_call_statement p d nm t s keys).data ∧
    (∃ a m, (sql_call_statement p d nm t s keys).data =
      a ++ ("NULL").data ++ m
        ++ ("-- Or use an empty JSON object: PARSE_JSON('\x7b\x7d')").data
        ++ ("\n);\n").data) := by
  refine ⟨rfl, ?_, ?_, ?_, ?_, ?_, ?_⟩
  · refine ⟨("\nCALL `" ++ p ++ "." ++ d ++ "." ++ nm ++ "`(\n    '" ++ t
      ++ "',          -- target_table_name STRING\n    '" ++ s
      ++ "',          -- source_table_name STRING\n    "
      ++ key_columns_sql_array keys
      ++ ",   -- key_columns ARRAY<STRING>\n    NULL                       -- options JSON (using NULL here)\n    -- Or use an empty JSON object: PARSE_JSON('\x7b\x7d')\n").data, ?_⟩
    simp only [sql_call_statement, key_columns_sql_array, String.data_append,
      List.append_assoc]
    rfl
  · refine ⟨("\nCALL `" ++ p ++ "." ++ d ++ "." ++ nm ++ "`(\n    '" ++ t
      ++ "',          ").data,
      ("\n    '" ++ s ++ "',          -- source_table_name STRING\n    "
        ++ key_columns_sql_array keys
        ++ ",   -- key_columns ARRAY<STRING>\n    NULL                       -- options JSON (using NULL here)\n    -- Or use an empty JSON object: PARSE_JSON('\x7b\x7d')\n);\n").data, ?_⟩
    simp only [sql_call_statement, key_columns_sql_array, String.data_append,
      List.append_assoc]
    rfl
  · refine ⟨("\nCALL `" ++ p ++ "." ++ d ++ "." ++ nm ++ "`(\n    '" ++ t
      ++ "',          -- target_table_name STRING\n    '" ++ s
      ++ "',          ").data,
      ("\n    " ++ key_columns_sql_array keys
        ++ ",   -- key_columns ARRAY<STRING>\n    NULL                       -- options JSON (using NULL here)\n    -- Or use an empty JSON object: PARSE_JSON('\x7b\x7d')\n);\n").data, ?_⟩
    simp only [sql_call_statement, key_columns_sql_array, String.data_append,
      List.append_assoc]
    rfl
  · refine ⟨("\nCALL `" ++ p ++ "." ++ d ++ "." ++ nm ++ "`(\n    '" ++ t
      ++ "',          -- target_table_name STRING\n    '" ++ s
      ++ "',          -- source_table_name STRING\n    "
      ++ key_columns_sql_array keys ++ ",   ").data,
      ("\n    NULL                       -- options JSON (using NULL here)\n    -- Or use an empty JSON object: PARSE_JSON('\x7b\x7d')\n);\n").data, ?_⟩
    simp only [sql_call_statement, key_columns_sql_array, String.data_append,
      List.append_assoc]
    rfl
  · refine ⟨("\nCALL `" ++ p ++ "." ++ d ++ "." ++ nm ++ "`(\n    '" ++ t
      ++ "',          -- target_table_name STRING\n    '" ++ s
      ++ "',          -- source_table_name STRING\n    "
      ++ key_columns_sql_array keys
      ++ ",   -- key_columns ARRAY<STRING>\n    NULL                       ").data,
      ("\n    -- Or use an empty JSON object: PARSE_JSON('\x7b\x7d')\n);\n").data, ?_⟩
    simp only [sql_call_statement, key_columns_sql_array, String.data_append,
      List.append_assoc]
    rfl
  · refine ⟨("\nCALL `" ++ p ++ "." ++ d ++ "." ++ nm ++ "`(\n    '" ++ t
      ++ "',          -- target_table_name STRING\n    '" ++ s
      ++ "',          -- source_table_name STRING\n    "
      ++ key_columns_sql_array keys
      ++ ",   -- key_columns ARRAY<STRING>\n    ").data,
      ("                       -- options JSON (using NULL here)\n    ").data, ?_⟩
    simp only [sql_call_statement, key_columns_sql_array, String.data_append,
      List.append_assoc]
    rfl

/-- Claim C10: no escaping is performed — every key column `c` appears in the
output as the verbatim fragment `'c'`, the target and source table strings
appear verbatim between single quotes, and an input containing a single quote
(such as the key column `O'Brien`) yields that quote unescaped inside a
single-quoted literal. -/
theorem c10_no_escaping :
    (∀ (p d nm t s : String) (keys : List String) (c : String), c ∈ keys →
      ("'" ++ c ++ "'").data <:+: (sql_call_statement p d nm t s keys).data) ∧
    (∀ (p d nm t s : String) (keys : List String),
      ("'" ++ t ++ "'").data <:+: (sql_call_statement p d nm t s keys).data ∧
      ("'" ++ s ++ "'").data <:+: (sql_call_statement p d nm t s keys).data) ∧
    ("'O'Brien'").data <:+:
      (sql_call_statement "proj" "ds" "usp_generic_merge"
        "proj.ds.target" "proj.ds.source" ["O'Brien"]).data := by
  refine ⟨fun p d nm t s keys c hc => quoted_key_infix_sql p d nm t s keys c hc, ?_, ?_⟩
  · intro p d nm t s keys
    constructor
    · refine ⟨("\nCALL `" ++ p ++ "." ++ d ++ "." ++ nm ++ "`(\n    ").data,
        (",          -- target_table_name STRING\n    '" ++ s
          ++ "',          -- source_table_name STRING\n    "
          ++ key_columns_sql_array keys
          ++ ",   -- key_columns ARRAY<STRING>\n    NULL                       -- options JSON (using NULL here)\n    -- Or use an empty JSON object: PARSE_JSON('\x7b\x7d')\n);\n").data, ?_⟩
      simp only [sql_call_statement, key_columns_sql_array, String.data_append,
        List.append_assoc]
      rfl
    · refine ⟨("\nCALL `" ++ p ++ "." ++ d ++ "." ++ nm ++ "`(\n    '" ++ t
        ++ "',          -- target_table_name STRING\n    ").data,
        (",          -- source_table_name STRING\n    "
          ++ key_columns_sql_array keys
          ++ ",   -- key_columns ARRAY<STRING>\n    NULL                       -- options JSON (using NULL here)\n    -- Or use an empty JSON object: PARSE_JSON('\x7b\x7d')\n);\n").data, ?_⟩
      simp only [sql_call_statement, key_columns_sql_array, String.data_append,
        List.append_assoc]
      rfl
  · decide

/-- Witness for C10 at the specification's example inputs. -/
theorem c10_no_escaping_witness :
    ("'id'").data <:+: (sql_call_statement "proj" "ds" "usp_generic_merge"
      "proj.ds.target" "proj.ds.source" ["id"]).data :=
  c10_no_escaping.1 "proj" "ds" "usp_generic_merge" "proj.ds.target"
    "proj.ds.source" ["id"] "id" (by decide)

/-- Claim C1, counterexample: on the example inputs the statement builder does
not produce the exact string demanded by the specification (the code's
f-string adds a leading newline, inline SQL comments and a trailing
newline). -/
theorem c1_spec_example_fails :
    sql_call_statement "proj" "ds" "usp_generic_merge"
      "proj.ds.target" "proj.ds.source" ["id"] ≠ specExampleOutput := by
  decide

/-- Claim C1, amended: on the example inputs the statement builder produces
exactly the source template's string — a leading newline, the `CALL` line,
each argument line carrying its trailing `--` comment, the commented
`PARSE_JSON` alternative line, and a trailing newline. -/
theorem c1_actual_output :
    sql_call_statement "proj" "ds" "usp_generic_merge"
      "proj.ds.target" "proj.ds.source" ["id"] =
    "\nCALL `proj.ds.usp_generic_merge`(\n    'proj.ds.target',          -- target_table_name STRING\n    'proj.ds.source',          -- source_table_name STRING\n    ['id'],   -- key_columns ARRAY<STRING>\n    NULL                       -- options JSON (using NULL here)\n    -- Or use an empty JSON object: PARSE_JSON('\x7b\x7d')\n);\n" := by
  decide

/-- Claim C2: the code performs no validation at all — with an empty
`key_columns` list (and otherwise well-formed inputs) the builder does not
fail; it renders the empty array literal `[]` and returns a complete
statement string. -/
theorem c2_empty_keys_builds_statement :
    key_columns_sql_array [] = "[]" ∧
    sql_call_statement "proj" "ds" "usp_generic_merge"
      "proj.ds.target" "proj.ds.source" [] =
    "\nCALL `proj.ds.usp_generic_merge`(\n    'proj.ds.target',          -- target_table_name STRING\n    'proj.ds.source',          -- source_table_name STRING\n    [],   -- key_columns ARRAY<STRING>\n    NULL                       -- options JSON (using NULL here)\n    -- Or use an empty JSON object: PARSE_JSON('\x7b\x7d')\n);\n" := by
  constructor
  · decide
  · decide

/-- Claim C4: the key-column rendering wraps each element in single quotes,
joins with the two-character separator `", "` and wraps the whole in square
brackets; in particular `["col"]` renders exactly as `['col']` and
`["id", "region"]` renders exactly as `['id', 'region']`, preserving order. -/
theorem c4_key_columns_rendering :
    (∀ keys : List String,
      key_columns_sql_array keys =
        "[" ++ joinSep ", " (keys.map (fun col => "'" ++ col ++ "'")) ++ "]") ∧
    key_columns_sql_array ["col"] = "['col']" ∧
    key_columns_sql_array ["id", "region"] = "['id', 'region']" := by
  refine ⟨fun keys => rfl, by decide, by decide⟩

/-- Claim C6: the statement builder is a deterministic pure function — two
invocations on identical inputs return identical strings. -/
theorem c6_deterministic
    (p₁ d₁ n₁ t₁ s₁ : String) (k₁ : List String)
    (p₂ d₂ n₂ t₂ s₂ : String) (k₂ : List String)
    (hp : p₁ = p₂) (hd : d₁ = d₂) (hn : n₁ = n₂)
    (ht : t₁ = t₂) (hs : s₁ = s₂) (hk : k₁ = k₂) :
    sql_call_statement p₁ d₁ n₁ t₁ s₁ k₁ = sql_call_statement p₂ d₂ n₂ t₂ s₂ k₂ := by
  subst hp hd hn ht hs hk
  rfl

/-- Witness for C6 at concrete inputs. -/
theorem c6_deterministic_witness :
    sql_call_statement "proj" "ds" "usp_generic_merge" "proj.ds.target" "proj.ds.source" ["id"] =
    sql_call_statement "proj" "ds" "usp_generic_merge" "proj.ds.target" "proj.ds.source" ["id"] :=
  c6_deterministic "proj" "ds" "usp_generic_merge" "proj.ds.target" "proj.ds.source" ["id"]
    "proj" "ds" "usp_generic_merge" "proj.ds.target" "proj.ds.source" ["id"]
    rfl rfl rfl rfl rfl rfl

/-- Claim C7: the registrar stores the built SQL string on the task object
unchanged — the `sql` field of the registered task is exactly the builder's
output, for every statement and task identifier. -/
theorem c7_sql_stored_unchanged (stmt tid : String) :
    (registerCallTask stmt tid).sql = stmt := rfl

/-- Witness for C7 at a concrete statement and task identifier. -/
theorem c7_sql_stored_unchanged_witness :
    (registerCallTask
      (sql_call_statement "proj" "ds" "usp_generic_merge"
        "proj.ds.target" "proj.ds.source" ["id"]) "call_usp_generic_merge").sql =
    sql_call_statement "proj" "ds" "usp_generic_merge"
      "proj.ds.target" "proj.ds.source" ["id"] :=
  c7_sql_stored_unchanged
    (sql_call_statement "proj" "ds" "usp_generic_merge"
      "proj.ds.target" "proj.ds.source" ["id"]) "call_usp_generic_merge"

/-- Claim C8: the registered task carries exactly the five declarative values
(task identifier, SQL text, dialect flag, location, connection identifier),
each string non-empty, with the legacy-SQL dialect disabled, and the script's
single DAG contains exactly this one task. -/
theorem c8_task_registration :
    dag.dag_id = "bq_call_generic_merge_sp" ∧
    dag.tasks = [call_bigquery_stored_procedure] ∧
    dag.tasks.length = 1 ∧
    call_bigquery_stored_procedure.task_id = "call_usp_generic_merge" ∧
    call_bigquery_stored_procedure.use_legacy_sql = false ∧
    call_bigquery_stored_procedure.location = "US" ∧
    call_bigquery_stored_procedure.gcp_conn_id = "google_cloud_default" ∧
    call_bigquery_stored_procedure.task_id ≠ "" ∧
    call_bigquery_stored_procedure.sql ≠ "" ∧
    call_bigquery_stored_procedure.location ≠ "" ∧
    call_bigquery_stored_procedure.gcp_conn_id ≠ "" := by
  refine ⟨rfl, rfl, rfl, rfl, rfl, rfl, rfl, ?_, ?_, ?_, ?_⟩ <;> decide

end AirflowCallBqSp
